import Mathlib

/-!
Verification development for the claude-web-ui session orchestration and
streaming layer.  The definitions below are shallow embeddings of the
TypeScript sources: `src/api/websocket.ts` (connection registry),
`src/api/pty-manager.ts` and `src/api/process-manager.ts` (supervisors),
`src/api/session-handler.ts` (session router),
`src/web/hooks/use-message-stream.ts` (stream assembler) and
`src/web/hooks/use-websocket.ts` (reconnecting channel).
JavaScript `Map`s are modelled as insertion-ordered association lists,
`Set`s as duplicate-free insertion-ordered lists, and side effects
(socket emissions, kills, writes) as explicit effect lists.
-/

namespace ClaudeWebUI

/-- Session mode, `"chat" | "terminal"` in the source. -/
inductive Mode
  | chat
  | terminal
deriving DecidableEq, Repr

/-- Server→client wire messages (the subset of fields the modelled handlers
produce, from the `ServerMessage` interface in `websocket.ts`). -/
inductive SMsg
  | connected (clientId : String)
  | sessionStarted (sessionId : String) (mode : Mode)
  | assistantChunk (content : String)
  | terminalOutput (data : String)
  | sessionEnded (reason : String)
  | errorMsg (message : String)
  | sessionControl (hasControl : Bool)
deriving DecidableEq, Repr

/-- Observable side effects of the backend handlers: socket emissions,
process/pty kills, pty writes and resizes. -/
inductive Eff
  | send (clientId : String) (msg : SMsg)
  | killProc (id : String)
  | killPty (id : String)
  | writePty (id : String) (data : String)
  | resizePty (id : String) (cols rows : Nat)
deriving DecidableEq, Repr

/-! ### Association lists: the model of JavaScript `Map` (insertion order). -/

/-- `Map.get`. -/
def alGet {α : Type} : List (String × α) → String → Option α
  | [], _ => none
  | (k, v) :: rest, key => if k = key then some v else alGet rest key

/-- `Map.set`: updates the value in place if the key exists, appends otherwise
(JS `Map.set` keeps the original insertion position of an existing key). -/
def alSet {α : Type} : List (String × α) → String → α → List (String × α)
  | [], key, v => [(key, v)]
  | (k, w) :: rest, key, v =>
      if k = key then (k, v) :: rest else (k, w) :: alSet rest key v

/-- `Map.delete`. -/
def alErase {α : Type} : List (String × α) → String → List (String × α)
  | [], _ => []
  | (k, v) :: rest, key =>
      if k = key then alErase rest key else (k, v) :: alErase rest key

/-- `Map.size` / `Set.size`. -/
def alSize {α : Type} (m : List (String × α)) : Nat := m.length

/-! ### Sets of client ids: the model of JavaScript `Set` (insertion order). -/

/-- `Set.add`: appends if not already present. -/
def setAdd (s : List String) (x : String) : List String :=
  if x ∈ s then s else s ++ [x]

/-- `Set.delete`: removes the element (sets hold no duplicates). -/
def setDelete (s : List String) (x : String) : List String :=
  s.erase x

/-! ## ConnectionRegistry — `src/api/websocket.ts`

State: `clients`, `sessionClients`, `sessionControllers` module-level maps.
The socket handle is reduced to its `connected` flag; `socket.join`/`leave`
room bookkeeping has no observable effect in the modelled operations. -/

/-- `ClientInfo` (socket reduced to its `connected` flag). -/
structure ClientInfo where
  sessionId : Option String
  connected : Bool
deriving DecidableEq, Repr

/-- The registry's module-level state in `websocket.ts`. -/
structure RegState where
  clients : List (String × ClientInfo)
  sessionClients : List (String × List String)
  sessionControllers : List (String × String)
deriving DecidableEq, Repr

/-- `sendToClient`: returns whether delivery happened and the emission. -/
def sendToClient (st : RegState) (clientId : String) (message : SMsg) :
    Bool × List Eff :=
  match alGet st.clients clientId with
  | none => (false, [])
  | some client =>
      if client.connected then (true, [.send clientId message]) else (false, [])

/-- `getClientsBySession`. -/
def getClientsBySession (st : RegState) (sessionId : String) : List String :=
  (alGet st.sessionClients sessionId).getD []

/-- `sendToSession`: fans out to every member, counting deliveries. -/
def sendToSession (st : RegState) (sessionId : String) (message : SMsg) :
    Nat × List Eff :=
  (getClientsBySession st sessionId).foldl
    (fun acc clientId =>
      let r := sendToClient st clientId message
      (acc.1 + (if r.1 then 1 else 0), acc.2 ++ r.2))
    (0, [])

/-- `getSessionController`. -/
def getSessionController (st : RegState) (sessionId : String) : Option String :=
  alGet st.sessionControllers sessionId

/-- `hasSessionControl`. -/
def hasSessionControl (st : RegState) (clientId sessionId : String) : Bool :=
  getSessionController st sessionId = some clientId

/-- `getClientSession`. -/
def getClientSession (st : RegState) (clientId : String) : Option String :=
  (alGet st.clients clientId).bind (·.sessionId)

/-- The mutation `client.sessionId = …` on the registry's client record. -/
def setClientSessionId (clients : List (String × ClientInfo)) (clientId : String)
    (sid : Option String) : List (String × ClientInfo) :=
  clients.map (fun (kv : String × ClientInfo) =>
    if kv.1 = clientId then (kv.1, { kv.2 with sessionId := sid }) else kv)

/-- `removeClientFromSession` (websocket.ts lines 100–122): drops the client
from its session's member set; deletes the empty session, or hands control to
the first remaining member (insertion order) when the controller left. -/
def removeClientFromSession (st : RegState) (clientId : String) :
    RegState × List Eff :=
  match alGet st.clients clientId with
  | none => (st, [])
  | some client =>
      match client.sessionId with
      | none => (st, [])
      | some sessionId =>
          match alGet st.sessionClients sessionId with
          | none => (st, [])
          | some sessionSet =>
              let sessionSet := setDelete sessionSet clientId
              if sessionSet = [] then
                ({ st with
                    sessionClients := alErase st.sessionClients sessionId,
                    sessionControllers := alErase st.sessionControllers sessionId },
                  [])
              else
                let st := { st with
                    sessionClients := alSet st.sessionClients sessionId sessionSet }
                if getSessionController st sessionId = some clientId then
                  match sessionSet.head? with
                  | some nextController =>
                      let st := { st with
                          sessionControllers :=
                            alSet st.sessionControllers sessionId nextController }
                      (st, (sendToClient st nextController (.sessionControl true)).2)
                  | none => (st, [])
                else
                  (st, [])

/-- `associateClientWithSession` (websocket.ts lines 206–241). -/
def associateClientWithSession (st : RegState) (clientId sessionId : String) :
    RegState × List Eff × Bool :=
  match alGet st.clients clientId with
  | none => (st, [], false)
  | some _ =>
      let r := removeClientFromSession st clientId
      let st := r.1
      let st := { st with
          clients := setClientSessionId st.clients clientId (some sessionId) }
      let sessionSet := (alGet st.sessionClients sessionId).getD []
      let st := { st with
          sessionClients := alSet st.sessionClients sessionId (setAdd sessionSet clientId) }
      if (alGet st.sessionControllers sessionId).isSome then
        (st, r.2 ++ (sendToClient st clientId (.sessionControl false)).2, true)
      else
        let st := { st with
            sessionControllers := alSet st.sessionControllers sessionId clientId }
        (st, r.2 ++ (sendToClient st clientId (.sessionControl true)).2, true)

/-- `dissociateClientFromSession` (websocket.ts lines 243–254). -/
def dissociateClientFromSession (st : RegState) (clientId : String) :
    RegState × List Eff × Bool :=
  match alGet st.clients clientId with
  | none => (st, [], false)
  | some client =>
      match client.sessionId with
      | none => (st, [], false)
      | some _ =>
          let r := removeClientFromSession st clientId
          let st := { r.1 with
              clients := setClientSessionId r.1.clients clientId none }
          (st, r.2, true)

/-! ## PtySupervisor — `src/api/pty-manager.ts`

The pty table is the module-level `ptys` map.  The OS-level pty handle is
reduced to the arguments it was spawned with (geometry and working
directory); `process.cwd()` and the generated id/time enter as parameters. -/

/-- `PtyOptions`. -/
structure PtyOptions where
  sessionId : Option String := none
  projectPath : Option String := none
  cols : Option Nat := none
  rows : Option Nat := none
deriving DecidableEq, Repr

/-- The modelled `pty.IPty` handle: the spawn arguments it received. -/
structure PtySpawnArgs where
  cols : Nat
  rows : Nat
  cwd : String
deriving DecidableEq, Repr

/-- `PtyInfo`. -/
structure PtyInfo where
  id : String
  pty : PtySpawnArgs
  sessionId : Option String
  projectPath : Option String
  startedAt : Int
deriving DecidableEq, Repr

/-- `MAX_CONCURRENT_PTYS`. -/
def MAX_CONCURRENT_PTYS : Nat := 10

/-- `DEFAULT_COLS`. -/
def DEFAULT_COLS : Nat := 120

/-- `DEFAULT_ROWS`. -/
def DEFAULT_ROWS : Nat := 30

/-- JS `x || d` on an optional number: `undefined` and `0` are falsy. -/
def orDefaultNat (x : Option Nat) (d : Nat) : Nat :=
  match x with
  | some n => if n = 0 then d else n
  | none => d

/-- JS `x || d` on an optional string: `undefined` and `""` are falsy. -/
def orDefaultStr (x : Option String) (d : String) : String :=
  match x with
  | some s => if s = "" then d else s
  | none => d

/-- `spawnClaudePty` (pty-manager.ts lines 38–91).  `ptyId` stands for the
generated id, `now` for `Date.now()`, `cwd0` for `process.cwd()`.  Throws
(`Except.error`) before any mutation when the table is at capacity. -/
def spawnClaudePty (ptys : List (String × PtyInfo)) (options : PtyOptions)
    (ptyId : String) (now : Int) (cwd0 : String) :
    Except String (PtyInfo × List (String × PtyInfo)) :=
  if alSize ptys ≥ MAX_CONCURRENT_PTYS then
    .error ("Maximum concurrent PTYs (" ++ toString MAX_CONCURRENT_PTYS ++ ") reached")
  else
    let cwd := orDefaultStr options.projectPath cwd0
    let cols := orDefaultNat options.cols DEFAULT_COLS
    let rows := orDefaultNat options.rows DEFAULT_ROWS
    let ptyInfo : PtyInfo :=
      { id := ptyId
        pty := { cols := cols, rows := rows, cwd := cwd }
        sessionId := options.sessionId
        projectPath := options.projectPath
        startedAt := now }
    .ok (ptyInfo, alSet ptys ptyId ptyInfo)

/-- The pty table after a `spawnClaudePty` call: a throw leaves the
module-level map untouched. -/
def spawnClaudePtyTable (ptys : List (String × PtyInfo)) (options : PtyOptions)
    (ptyId : String) (now : Int) (cwd0 : String) : List (String × PtyInfo) :=
  match spawnClaudePty ptys options ptyId now cwd0 with
  | .error _ => ptys
  | .ok r => r.2

/-- `getPty`. -/
def getPty (ptys : List (String × PtyInfo)) (ptyId : String) : Option PtyInfo :=
  alGet ptys ptyId

/-- `getPtyCount`. -/
def getPtyCount (ptys : List (String × PtyInfo)) : Nat := alSize ptys

/-! ## ProcessSupervisor — `src/api/process-manager.ts` -/

/-- `ProcessInfo.status`. -/
inductive ProcStatus
  | starting
  | running
  | stopped
deriving DecidableEq, Repr

/-- `ProcessOptions`. -/
structure ProcessOptions where
  sessionId : Option String := none
  projectPath : Option String := none
  model : Option String := none
  dangerouslySkipPermissions : Bool := false
deriving DecidableEq, Repr

/-- `ProcessInfo` (the `ChildProcess` handle itself is not modelled; the
supervisor table entry carries the bookkeeping fields). -/
structure ProcessInfo where
  id : String
  sessionId : Option String
  projectPath : Option String
  startedAt : Int
  status : ProcStatus
deriving DecidableEq, Repr

/-- `MAX_CONCURRENT_PROCESSES`. -/
def MAX_CONCURRENT_PROCESSES : Nat := 10

/-- `spawnClaudeProcess` (process-manager.ts lines 758–831): throws
(`Except.error`) before any mutation when the table is at capacity. -/
def spawnClaudeProcess (processes : List (String × ProcessInfo))
    (options : ProcessOptions) (processId : String) (now : Int) :
    Except String (ProcessInfo × List (String × ProcessInfo)) :=
  if alSize processes ≥ MAX_CONCURRENT_PROCESSES then
    .error ("Maximum concurrent processes (" ++ toString MAX_CONCURRENT_PROCESSES
      ++ ") reached")
  else
    let processInfo : ProcessInfo :=
      { id := processId
        sessionId := options.sessionId
        projectPath := options.projectPath
        startedAt := now
        status := .starting }
    .ok (processInfo, alSet processes processId processInfo)

/-- The process table after a `spawnClaudeProcess` call: a throw leaves the
module-level map untouched. -/
def spawnClaudeProcessTable (processes : List (String × ProcessInfo))
    (options : ProcessOptions) (processId : String) (now : Int) :
    List (String × ProcessInfo) :=
  match spawnClaudeProcess processes options processId now with
  | .error _ => processes
  | .ok r => r.2

/-- `getProcess`. -/
def getProcess (processes : List (String × ProcessInfo)) (processId : String) :
    Option ProcessInfo :=
  alGet processes processId

/-- `getProcessCount`. -/
def getProcessCount (processes : List (String × ProcessInfo)) : Nat :=
  alSize processes

/-! ### Exit/error event handlers as ordered action sequences (for the
removal-vs-delivery ordering).  `EventEmitter.emit` invokes listeners
synchronously, so the table a listener observes is the table at the moment
of the `emit` statement. -/

/-- `PtyOutput`. -/
inductive PtyOutput
  | data (data : String)
  | exit (exitCode : Int)
deriving DecidableEq, Repr

/-- `ProcessOutput`. -/
inductive ProcessOutput
  | stdout (data : String)
  | stderr (data : String)
  | exit (code : Option Int) (signal : Option String)
  | error (error : Option String)
deriving DecidableEq, Repr

/-- Primitive statements of the pty `onExit` callback. -/
inductive PtyAct
  | emitOutput (ptyId : String) (out : PtyOutput)
  | removeHandle (ptyId : String)
deriving DecidableEq, Repr

/-- The `ptyProcess.onExit` callback body (pty-manager.ts lines 85–88), in
source statement order: emit first, then `ptys.delete(ptyId)`. -/
def ptyOnExit (ptyId : String) (exitCode : Int) : List PtyAct :=
  [.emitOutput ptyId (.exit exitCode), .removeHandle ptyId]

/-- Runs a pty action sequence over the table, returning the final table and,
for each emission, the table as seen by a synchronously-invoked listener. -/
def runPtyActs (t : List (String × PtyInfo)) :
    List PtyAct → List (String × PtyInfo) × List (String × PtyOutput × List (String × PtyInfo))
  | [] => (t, [])
  | .emitOutput id out :: rest =>
      let r := runPtyActs t rest
      (r.1, (id, out, t) :: r.2)
  | .removeHandle id :: rest => runPtyActs (alErase t id) rest

/-- Primitive statements of the process `exit`/`error` callbacks. -/
inductive ProcAct
  | setStatus (processId : String) (status : ProcStatus)
  | emitOutput (processId : String) (out : ProcessOutput)
  | removeHandle (processId : String)
deriving DecidableEq, Repr

/-- The `child.on("exit", …)` callback body (process-manager.ts lines
820–828), in source statement order: status, emit, then delete. -/
def procOnExit (processId : String) (code : Option Int) (signal : Option String) :
    List ProcAct :=
  [.setStatus processId .stopped,
   .emitOutput processId (.exit code signal),
   .removeHandle processId]

/-- The `child.on("error", …)` callback body (process-manager.ts lines
811–818), in source statement order: status, emit, then delete. -/
def procOnError (processId : String) (errMessage : String) : List ProcAct :=
  [.setStatus processId .stopped,
   .emitOutput processId (.error (some errMessage)),
   .removeHandle processId]

/-- Runs a process action sequence over the table, returning the final table
and, per emission, the table a synchronously-invoked listener observes. -/
def runProcActs (t : List (String × ProcessInfo)) :
    List ProcAct →
      List (String × ProcessInfo) × List (String × ProcessOutput × List (String × ProcessInfo))
  | [] => (t, [])
  | .setStatus id s :: rest =>
      let t' := match alGet t id with
        | some info => alSet t id { info with status := s }
        | none => t
      runProcActs t' rest
  | .emitOutput id out :: rest =>
      let r := runProcActs t rest
      (r.1, (id, out, t) :: r.2)
  | .removeHandle id :: rest => runProcActs (alErase t id) rest

/-! ## SessionRouter — `src/api/session-handler.ts`

Combined system state: the registry plus the router's three module-level maps
plus both supervisor tables.  Generated ids, `Date.now()` and `process.cwd()`
enter as parameters. -/

/-- `SessionStatus`. -/
inductive SessionStatus
  | active
  | ended
deriving DecidableEq, Repr

/-- `ClientSession`. -/
structure ClientSession where
  mode : Mode
  processId : Option String := none
  ptyId : Option String := none
  sessionId : Option String := none
  status : SessionStatus
  endReason : Option String := none
deriving DecidableEq, Repr

/-- `ClientMessage` (websocket.ts lines 9–26). -/
structure ClientMsg where
  type : String
  sessionId : Option String := none
  projectPath : Option String := none
  content : Option String := none
  mode : Option Mode := none
  cols : Option Nat := none
  rows : Option Nat := none
  dangerouslySkipPermissions : Option Bool := none
deriving DecidableEq, Repr

/-- The whole backend state the router touches. -/
structure SysState where
  reg : RegState
  clientSessions : List (String × ClientSession)
  processClients : List (String × String)
  ptyClients : List (String × String)
  processes : List (String × ProcessInfo)
  ptys : List (String × PtyInfo)
deriving DecidableEq, Repr

/-- `killProcess` (process-manager.ts lines 857–866) at system level. -/
def killProcessSys (st : SysState) (processId : String) :
    SysState × Bool × List Eff :=
  match alGet st.processes processId with
  | none => (st, false, [])
  | some _ =>
      ({ st with processes := alErase st.processes processId }, true,
        [.killProc processId])

/-- `killPty` (pty-manager.ts lines 115–123) at system level. -/
def killPtySys (st : SysState) (ptyId : String) : SysState × Bool × List Eff :=
  match alGet st.ptys ptyId with
  | none => (st, false, [])
  | some _ =>
      ({ st with ptys := alErase st.ptys ptyId }, true, [.killPty ptyId])

/-- `writeToPty` (pty-manager.ts lines 93–100) at system level. -/
def writeToPtySys (st : SysState) (ptyId : String) (data : String) :
    Bool × List Eff :=
  match alGet st.ptys ptyId with
  | none => (false, [])
  | some _ => (true, [.writePty ptyId data])

/-- `resizePty` (pty-manager.ts lines 102–113) at system level. -/
def resizePtySys (st : SysState) (ptyId : String) (cols rows : Nat) :
    Bool × List Eff :=
  match alGet st.ptys ptyId with
  | none => (false, [])
  | some _ => (true, [.resizePty ptyId cols rows])

/-- JS truthiness on an optional string (`undefined`/`""` falsy). -/
def strTruthy (x : Option String) : Option String :=
  match x with
  | some s => if s = "" then none else some s
  | none => none

/-- JS truthiness on an optional number (`undefined`/`0` falsy). -/
def natTruthy (x : Option Nat) : Option Nat :=
  match x with
  | some n => if n = 0 then none else some n
  | none => none

/-- `markSessionEnded` (session-handler.ts lines 146–160). -/
def markSessionEnded (st : SysState) (clientId reason : String) : SysState :=
  match alGet st.clientSessions clientId with
  | none => st
  | some clientSession =>
      let st := match clientSession.processId with
        | some pid => { st with processClients := alErase st.processClients pid }
        | none => st
      let st := match clientSession.ptyId with
        | some tid => { st with ptyClients := alErase st.ptyClients tid }
        | none => st
      { st with
          clientSessions := alSet st.clientSessions clientId
            { clientSession with
                status := .ended
                endReason := some reason
                processId := none
                ptyId := none } }

/-- `cleanupClientSession` (session-handler.ts lines 162–173). -/
def cleanupClientSession (st : SysState) (clientId : String) : SysState :=
  match alGet st.clientSessions clientId with
  | none => st
  | some clientSession =>
      let st := match clientSession.processId with
        | some pid => { st with processClients := alErase st.processClients pid }
        | none => st
      let st := match clientSession.ptyId with
        | some tid => { st with ptyClients := alErase st.ptyClients tid }
        | none => st
      { st with clientSessions := alErase st.clientSessions clientId }

/-- `handleProcessOutput` (session-handler.ts lines 44–102). -/
def handleProcessOutput (st : SysState) (processId : String)
    (output : ProcessOutput) : SysState × List Eff :=
  match alGet st.processClients processId with
  | none => (st, [])
  | some clientId =>
      let sessionId := (alGet st.clientSessions clientId).bind (·.sessionId)
      match output with
      | .stdout data =>
          (st, match sessionId with
            | some sid => (sendToSession st.reg sid (.assistantChunk data)).2
            | none => (sendToClient st.reg clientId (.assistantChunk data)).2)
      | .stderr data =>
          (st, match sessionId with
            | some sid => (sendToSession st.reg sid (.assistantChunk data)).2
            | none => (sendToClient st.reg clientId (.assistantChunk data)).2)
      | .exit code signal =>
          let reason := match strTruthy signal with
            | some sg => "Signal: " ++ sg
            | none => "Exit code: " ++
                (match code with | some n => toString n | none => "null")
          let emits := match sessionId with
            | some sid => (sendToSession st.reg sid (.sessionEnded reason)).2
            | none => (sendToClient st.reg clientId (.sessionEnded reason)).2
          (markSessionEnded st clientId reason, emits)
      | .error e =>
          let reason := orDefaultStr e "Process error"
          let emits := (sendToClient st.reg clientId (.errorMsg reason)).2 ++
            (sendToClient st.reg clientId (.sessionEnded reason)).2
          (markSessionEnded st clientId reason, emits)

/-- `handlePtyOutput` (session-handler.ts lines 104–144). -/
def handlePtyOutput (st : SysState) (ptyId : String) (output : PtyOutput) :
    SysState × List Eff :=
  match alGet st.ptyClients ptyId with
  | none => (st, [])
  | some clientId =>
      let sessionId := (alGet st.clientSessions clientId).bind (·.sessionId)
      match output with
      | .data d =>
          (st, match sessionId with
            | some sid => (sendToSession st.reg sid (.terminalOutput d)).2
            | none => (sendToClient st.reg clientId (.terminalOutput d)).2)
      | .exit exitCode =>
          let reason := "Exit code: " ++ toString exitCode
          let emits := match sessionId with
            | some sid => (sendToSession st.reg sid (.sessionEnded reason)).2
            | none => (sendToClient st.reg clientId (.sessionEnded reason)).2
          (markSessionEnded st clientId reason, emits)

/-- `handleSessionStart` (session-handler.ts lines 220–303). -/
def handleSessionStart (st : SysState) (clientId : String) (message : ClientMsg)
    (freshId : String) (now : Int) (cwd0 : String) : SysState × List Eff :=
  let pre : SysState × List Eff :=
    match alGet st.clientSessions clientId with
    | some existingSession =>
        let r1 := match existingSession.processId with
          | some pid => killProcessSys st pid
          | none => (st, false, [])
        let r2 := match existingSession.ptyId with
          | some tid => killPtySys r1.1 tid
          | none => (r1.1, false, [])
        (cleanupClientSession r2.1 clientId, r1.2.2 ++ r2.2.2)
    | none => (st, [])
  let st := pre.1
  let mode : Mode := match message.mode with
    | some m => m
    | none => .chat
  match mode with
  | .terminal =>
      match spawnClaudePty st.ptys
          { sessionId := message.sessionId
            projectPath := message.projectPath
            cols := message.cols
            rows := message.rows } freshId now cwd0 with
      | .error err =>
          (st, pre.2 ++ (sendToClient st.reg clientId (.errorMsg err)).2)
      | .ok r =>
          let ptyInfo := r.1
          let st := { st with ptys := r.2 }
          let st := { st with
              clientSessions := alSet st.clientSessions clientId
                { mode := .terminal
                  ptyId := some ptyInfo.id
                  sessionId := message.sessionId
                  status := .active } }
          let st := { st with ptyClients := alSet st.ptyClients ptyInfo.id clientId }
          let assoc : SysState × List Eff :=
            match message.sessionId with
            | some sid =>
                let a := associateClientWithSession st.reg clientId sid
                ({ st with reg := a.1 }, a.2.1)
            | none => (st, [])
          let st := assoc.1
          (st, pre.2 ++ assoc.2 ++
            (sendToClient st.reg clientId
              (.sessionStarted (orDefaultStr message.sessionId ptyInfo.id) .terminal)).2)
  | .chat =>
      match spawnClaudeProcess st.processes
          { sessionId := message.sessionId
            projectPath := message.projectPath
            dangerouslySkipPermissions :=
              (message.dangerouslySkipPermissions).getD false } freshId now with
      | .error err =>
          (st, pre.2 ++ (sendToClient st.reg clientId (.errorMsg err)).2)
      | .ok r =>
          let processInfo := r.1
          let st := { st with processes := r.2 }
          let st := { st with
              clientSessions := alSet st.clientSessions clientId
                { mode := .chat
                  processId := some processInfo.id
                  sessionId := message.sessionId
                  status := .active } }
          let st := { st with
              processClients := alSet st.processClients processInfo.id clientId }
          let assoc : SysState × List Eff :=
            match message.sessionId with
            | some sid =>
                let a := associateClientWithSession st.reg clientId sid
                ({ st with reg := a.1 }, a.2.1)
            | none => (st, [])
          let st := assoc.1
          (st, pre.2 ++ assoc.2 ++
            (sendToClient st.reg clientId
              (.sessionStarted (orDefaultStr message.sessionId processInfo.id) .chat)).2)

/-- `handleModeSwitch` (session-handler.ts lines 402–443).  Note the
`projectPath` ternary at lines 418–422 evaluates to `undefined` in every
branch; it is embedded literally. -/
def handleModeSwitch (st : SysState) (clientId : String) (message : ClientMsg)
    (freshId : String) (now : Int) (cwd0 : String) : SysState × List Eff :=
  match alGet st.clientSessions clientId with
  | none =>
      (st, (sendToClient st.reg clientId
        (.errorMsg "No active session. Start a session first.")).2)
  | some clientSession =>
      match message.mode with
      | none => (st, [])
      | some newMode =>
          if newMode = clientSession.mode then (st, [])
          else
            let sessionId := clientSession.sessionId
            let projectPath : Option String :=
              match clientSession.processId with
              | some _ => none
              | none =>
                  match clientSession.ptyId with
                  | some _ => none
                  | none => none
            let r1 : SysState × List Eff :=
              match clientSession.processId with
              | some pid =>
                  let k := killProcessSys st pid
                  ({ k.1 with processClients := alErase k.1.processClients pid },
                    k.2.2)
              | none => (st, [])
            let r2 : SysState × List Eff :=
              match clientSession.ptyId with
              | some tid =>
                  let k := killPtySys r1.1 tid
                  ({ k.1 with ptyClients := alErase k.1.ptyClients tid }, k.2.2)
              | none => (r1.1, [])
            let st := { r2.1 with
                clientSessions := alErase r2.1.clientSessions clientId }
            let r3 := handleSessionStart st clientId
              { type := "session.start"
                sessionId := sessionId
                projectPath := projectPath
                mode := some newMode
                cols := message.cols
                rows := message.rows } freshId now cwd0
            (r3.1, r1.2 ++ r2.2 ++ r3.2)

/-- `handleTerminalInput` (session-handler.ts lines 445–462). -/
def handleTerminalInput (st : SysState) (clientId : String)
    (message : ClientMsg) : SysState × List Eff :=
  match alGet st.clientSessions clientId with
  | none =>
      (st, (sendToClient st.reg clientId (.errorMsg "No active terminal session")).2)
  | some clientSession =>
      if clientSession.mode ≠ .terminal then
        (st, (sendToClient st.reg clientId (.errorMsg "No active terminal session")).2)
      else
        match strTruthy message.content with
        | none => (st, [])
        | some content =>
            match clientSession.ptyId with
            | some tid => (st, (writeToPtySys st tid content).2)
            | none => (st, [])

/-- `handleTerminalResize` (session-handler.ts lines 464–473). -/
def handleTerminalResize (st : SysState) (clientId : String)
    (message : ClientMsg) : SysState × List Eff :=
  match alGet st.clientSessions clientId with
  | none => (st, [])
  | some clientSession =>
      if clientSession.mode ≠ .terminal then (st, [])
      else
        match clientSession.ptyId, natTruthy message.cols, natTruthy message.rows with
        | some tid, some cols, some rows => (st, (resizePtySys st tid cols rows).2)
        | _, _, _ => (st, [])

/-! ## StreamAssembler — `src/web/hooks/use-message-stream.ts`

JSON values as produced by `JSON.parse` (the numeric subset used by the
stream protocol is integral).  Strings are byte/char sequences (`List Char`)
at the transport layer, Lean `String`s once parsed into JSON. -/

/-- A parsed JSON value. -/
inductive Json
  | null
  | bool (b : Bool)
  | num (n : Int)
  | str (s : String)
  | arr (elems : List Json)
  | obj (fields : List (String × Json))

/-- The `{` character (written via its code point). -/
def lbrace : Char := Char.ofNat 123

/-- The `}` character (written via its code point). -/
def rbrace : Char := Char.ofNat 125

/-- JSON / JS whitespace. -/
def isWsChar (c : Char) : Bool :=
  c = ' ' ∨ c = '\n' ∨ c = '\t' ∨ c = '\r'

/-- Skip leading whitespace. -/
def skipWs (s : List Char) : List Char :=
  s.dropWhile isWsChar

/-- Parse the body of a JSON string after the opening quote. -/
def parseStringBody : List Char → List Char → Option (String × List Char)
  | [], _ => none
  | c :: rest, acc =>
      if c = '"' then some (String.mk acc.reverse, rest)
      else if c = '\\' then
        match rest with
        | [] => none
        | e :: rest2 =>
            let dec : Option Char :=
              if e = '"' then some '"'
              else if e = '\\' then some '\\'
              else if e = '/' then some '/'
              else if e = 'n' then some '\n'
              else if e = 't' then some '\t'
              else if e = 'r' then some '\r'
              else none
            match dec with
            | some d => parseStringBody rest2 (d :: acc)
            | none => none
      else parseStringBody rest (c :: acc)

/-- Parse a run of decimal digits. -/
def parseDigits : List Char → Nat → Bool → Option (Nat × List Char)
  | [], _, false => none
  | [], acc, true => some (acc, [])
  | c :: rest, acc, seen =>
      if c.isDigit then parseDigits rest (acc * 10 + (c.toNat - 48)) true
      else if seen then some (acc, c :: rest)
      else none

/-- Parse an integral JSON number. -/
def parseNumber (s : List Char) : Option (Int × List Char) :=
  match s with
  | '-' :: rest =>
      match parseDigits rest 0 false with
      | some (n, rest2) => some (-(n : Int), rest2)
      | none => none
  | _ =>
      match parseDigits s 0 false with
      | some (n, rest2) => some ((n : Int), rest2)
      | none => none

/-- Check that the input starts with the given characters. -/
def expectChars : List Char → List Char → Option (List Char)
  | [], s => some s
  | c :: cs, d :: s => if c = d then expectChars cs s else none
  | _ :: _, [] => none

mutual

/-- Recursive-descent JSON value parser (fuel-indexed). -/
def parseValue : Nat → List Char → Option (Json × List Char)
  | 0, _ => none
  | Nat.succ fuel, s =>
      match skipWs s with
      | [] => none
      | c :: rest =>
          if c = '"' then
            match parseStringBody rest [] with
            | some (str, rest2) => some (.str str, rest2)
            | none => none
          else if c = lbrace then parseObjFields fuel rest []
          else if c = '[' then parseArrElems fuel rest []
          else if c = 't' then
            (expectChars ("rue".data) rest).map (fun r => (.bool true, r))
          else if c = 'f' then
            (expectChars ("alse".data) rest).map (fun r => (.bool false, r))
          else if c = 'n' then
            (expectChars ("ull".data) rest).map (fun r => (Json.null, r))
          else
            match parseNumber (c :: rest) with
            | some (n, rest2) => some (.num n, rest2)
            | none => none

/-- Parse object members after `{` (key last-wins, as in `JSON.parse`). -/
def parseObjFields : Nat → List Char → List (String × Json) →
    Option (Json × List Char)
  | 0, _, _ => none
  | Nat.succ fuel, s, acc =>
      match skipWs s with
      | [] => none
      | c :: rest =>
          if c = rbrace then some (.obj acc, rest)
          else if c = '"' then
            match parseStringBody rest [] with
            | none => none
            | some (key, rest2) =>
                match skipWs rest2 with
                | ':' :: rest3 =>
                    match parseValue fuel rest3 with
                    | none => none
                    | some (v, rest4) =>
                        let acc := alSet acc key v
                        match skipWs rest4 with
                        | ',' :: rest5 => parseObjFields fuel rest5 acc
                        | d :: rest5 =>
                            if d = rbrace then some (.obj acc, rest5) else none
                        | [] => none
                | _ => none
          else none

/-- Parse array elements after `[`. -/
def parseArrElems : Nat → List Char → List Json → Option (Json × List Char)
  | 0, _, _ => none
  | Nat.succ fuel, s, acc =>
      match skipWs s with
      | [] => none
      | ']' :: rest => some (.arr acc.reverse, rest)
      | s' =>
          match parseValue fuel s' with
          | none => none
          | some (v, rest2) =>
              match skipWs rest2 with
              | ',' :: rest3 => parseArrElems fuel rest3 (v :: acc)
              | ']' :: rest3 => some (.arr (v :: acc).reverse, rest3)
              | _ => none

end

/-- `JSON.parse`: the whole input must be one value (possibly padded by
whitespace); anything else throws, i.e. returns `none`. -/
def parseJson (s : List Char) : Option Json :=
  match parseValue (s.length + 4) s with
  | some (v, rest) => if skipWs rest = [] then some v else none
  | none => none

/-- JS property access `j.key`: `none` models `undefined`. -/
def Json.getField (j : Json) (key : String) : Option Json :=
  match j with
  | .obj fields => alGet fields key
  | _ => none

/-- Property access expecting a string value. -/
def Json.getStr (j : Json) (key : String) : Option String :=
  match j.getField key with
  | some (.str s) => some s
  | _ => none

/-- Property access expecting a non-negative integral value (an array
index). -/
def Json.getNat (j : Json) (key : String) : Option Nat :=
  match j.getField key with
  | some (.num n) => if 0 ≤ n then some n.toNat else none
  | _ => none

/-- JS object property assignment `j.key = v` (on non-objects a no-op for
our purposes). -/
def Json.setField (j : Json) (key : String) (v : Json) : Json :=
  match j with
  | .obj fields => .obj (alSet fields key v)
  | _ => j

/-- Message role, `"user" | "assistant"`. -/
inductive MsgRole
  | user
  | assistant

/-- `StreamingMessage` (content blocks kept as the JS objects they are;
`none` entries model array holes). -/
structure StreamingMessage where
  id : String
  role : MsgRole
  content : List (Option Json)
  isStreaming : Bool

/-- The assembler's ref state other than the line buffer
(`streamingMessages`, `isStreaming`, `currentMessageIdRef`,
`contentBlocksRef`, `messageCounterRef`). -/
structure AsmCore where
  streamingMessages : List StreamingMessage
  isStreaming : Bool
  currentMessageId : Option String
  contentBlocks : List (Option Json)
  messageCounter : Nat

/-- The full assembler state: `bufferRef` plus the core. -/
structure AsmState where
  buffer : List Char
  core : AsmCore

/-- The assembler's initial state. -/
def asmInit : AsmState :=
  { buffer := []
    core :=
      { streamingMessages := []
        isStreaming := false
        currentMessageId := none
        contentBlocks := []
        messageCounter := 0 } }

/-- JS sparse-array index assignment `arr[i] = v` (pads with holes). -/
def listSetPad (l : List (Option Json)) (i : Nat) (v : Json) :
    List (Option Json) :=
  if i < l.length then l.set i (some v)
  else l ++ List.replicate (i - l.length) none ++ [some v]

/-- JS array read `arr[i]` (`undefined` on holes and out of range). -/
def listGetOpt (l : List (Option Json)) (i : Nat) : Option Json :=
  (l.get? i).join

/-- Replace the content of the message `currentMessageId` points at
(the `setStreamingMessages(prev => prev.map(...))` updates). -/
def updateCurrentContent (core : AsmCore) (blocks : List (Option Json)) :
    AsmCore :=
  match core.currentMessageId with
  | none => { core with contentBlocks := blocks }
  | some mid =>
      { core with
          contentBlocks := blocks
          streamingMessages := core.streamingMessages.map (fun m =>
            if m.id = mid then { m with content := blocks } else m) }

/-- The `tool_use` block object built by `content_block_start`
(`{ type, id, name, input: {} }`; absent source fields stay absent). -/
def mkToolUseBlock (block : Json) : Json :=
  .obj ([("type", Json.str "tool_use")] ++
    (match block.getField "id" with
     | some v => [("id", v)]
     | none => ([] : List (String × Json))) ++
    (match block.getField "name" with
     | some v => [("name", v)]
     | none => ([] : List (String × Json))) ++
    [("input", Json.obj [])])

/-- `processEvent` (use-message-stream.ts lines 85–224).  A JS `TypeError`
thrown by a property access on `undefined`/`null` is caught by
`handleChunk`'s `try`; every such access happens before any mutation in its
branch, so those paths return the state unchanged. -/
def processEvent (core : AsmCore) (event : Json) : AsmCore :=
  match event.getStr "type" with
  | some "assistant" =>
      (match event.getField "message" with
       | none => core
       | some Json.null => core
       | some msg =>
           let idAndCounter : String × Nat :=
             match strTruthy (msg.getStr "id") with
             | some mid => (mid, core.messageCounter)
             | none =>
                 ("stream-assistant-" ++ toString (core.messageCounter + 1),
                   core.messageCounter + 1)
           let messageId := idAndCounter.1
           let blocks : List (Option Json) :=
             match msg.getField "content" with
             | some (.arr xs) => xs.map some
             | _ => []
           let msgs :=
             if core.streamingMessages.any (fun m => m.id = messageId) then
               core.streamingMessages.map (fun m =>
                 if m.id = messageId then
                   { m with content := blocks, isStreaming := true }
                 else m)
             else
               core.streamingMessages ++
                 [{ id := messageId
                    role := .assistant
                    content := blocks
                    isStreaming := true }]
           { core with
               streamingMessages := msgs
               isStreaming := true
               currentMessageId := some messageId
               contentBlocks := blocks
               messageCounter := idAndCounter.2 })
  | some "content_block_start" =>
      (match event.getField "content_block" with
       | none => core
       | some Json.null => core
       | some block =>
           let blocks :=
             match event.getNat "index" with
             | none => core.contentBlocks
             | some i =>
                 match block.getStr "type" with
                 | some "tool_use" =>
                     listSetPad core.contentBlocks i (mkToolUseBlock block)
                 | some "text" =>
                     listSetPad core.contentBlocks i
                       (.obj [("type", .str "text"),
                              ("text", .str ((block.getStr "text").getD ""))])
                 | some "thinking" =>
                     listSetPad core.contentBlocks i
                       (.obj [("type", .str "thinking"),
                              ("thinking",
                                .str ((block.getStr "thinking").getD ""))])
                 | _ => core.contentBlocks
           updateCurrentContent core blocks)
  | some "content_block_delta" =>
      (match event.getNat "index" with
       | none => core
       | some i =>
           match listGetOpt core.contentBlocks i with
           | none => core
           | some block =>
               match event.getField "delta" with
               | none => core
               | some Json.null => core
               | some delta =>
                   let block' :=
                     match delta.getStr "type" with
                     | some "text_delta" =>
                         (match strTruthy (delta.getStr "text") with
                          | some t =>
                              if block.getStr "type" = some "text" then
                                block.setField "text"
                                  (.str (((block.getStr "text").getD "") ++ t))
                              else block
                          | none => block)
                     | some "thinking_delta" =>
                         (match strTruthy (delta.getStr "thinking") with
                          | some t =>
                              if block.getStr "type" = some "thinking" then
                                block.setField "thinking"
                                  (.str (((block.getStr "thinking").getD "") ++ t))
                              else block
                          | none => block)
                     | some "input_json_delta" =>
                         (match strTruthy (delta.getStr "partial_json") with
                          | some pj =>
                              if block.getStr "type" = some "tool_use" then
                                let currentInput :=
                                  match block.getField "input" with
                                  | some (.str s) => s
                                  | _ => ""
                                block.setField "input" (.str (currentInput ++ pj))
                              else block
                          | none => block)
                     | _ => block
                   updateCurrentContent core
                     (listSetPad core.contentBlocks i block'))
  | some "content_block_stop" =>
      (let blocks :=
         match event.getNat "index" with
         | none => core.contentBlocks
         | some i =>
             match listGetOpt core.contentBlocks i with
             | none => core.contentBlocks
             | some block =>
                 if block.getStr "type" = some "tool_use" then
                   match block.getField "input" with
                   | some (.str s) =>
                       (match parseJson s.data with
                        | some v => listSetPad core.contentBlocks i
                            (block.setField "input" v)
                        | none => core.contentBlocks)
                   | _ => core.contentBlocks
                 else core.contentBlocks
       updateCurrentContent core blocks)
  | some "message_stop" =>
      (let msgs :=
         match core.currentMessageId with
         | some mid =>
             core.streamingMessages.map (fun m =>
               if m.id = mid then { m with isStreaming := false } else m)
         | none => core.streamingMessages
       { core with
           streamingMessages := msgs
           currentMessageId := none
           contentBlocks := [] })
  | some "result" =>
      { core with
          isStreaming := false
          currentMessageId := none
          contentBlocks := [] }
  | _ => core

/-- JS `String.prototype.trim`. -/
def trimChars (s : List Char) : List Char :=
  ((s.dropWhile isWsChar).reverse.dropWhile isWsChar).reverse

/-- One iteration of `handleChunk`'s per-line loop: skip blank lines, parse,
process; parse failures are swallowed. -/
def processLine (core : AsmCore) (line : List Char) : AsmCore :=
  let trimmed := trimChars line
  if trimmed = [] then core
  else
    match parseJson trimmed with
    | some event => processEvent core event
    | none => core

/-- Split a char sequence into its `\n`-terminated complete lines and the
trailing incomplete remainder (`split("\n")` followed by `pop()`). -/
def splitComplete : List Char → List (List Char) × List Char
  | [] => ([], [])
  | c :: rest =>
      let r := splitComplete rest
      if c = '\n' then (([] : List Char) :: r.1, r.2)
      else
        match r.1 with
        | h :: t => ((c :: h) :: t, r.2)
        | [] => ([], c :: r.2)

/-- `handleChunk` (use-message-stream.ts lines 226–248): appends the chunk to
the buffer, keeps the trailing partial line as the new buffer, and processes
each complete line. -/
def handleChunk (st : AsmState) (chunk : List Char) : AsmState :=
  let p := splitComplete (st.buffer ++ chunk)
  { buffer := p.2, core := p.1.foldl processLine st.core }

/-! ## ReconnectingChannel — `src/web/hooks/use-websocket.ts`

The backoff logic of the `ws.onclose` handler (lines 260–282).  Delays are
rationals; the `Math.random()` draw enters as the parameter `rand ∈ [0,1]`. -/

/-- `addJitter` (use-websocket.ts lines 84–87) with the default
`jitterFactor = 0.3`. -/
def addJitter (delay : ℚ) (rand : ℚ) : ℚ :=
  max 0 (delay + delay * (3 / 10) * (rand * 2 - 1))

/-- The observable outcome of one `ws.onclose` invocation. -/
structure CloseResult where
  retryCount : Nat
  scheduledDelay : Option ℚ
  reconnectingCb : Option (Nat × Nat)
  terminalFailure : Bool
deriving DecidableEq, Repr

/-- `ws.onclose` (use-websocket.ts lines 260–282): on an unclean close below
the retry ceiling, schedule a reconnect after
`addJitter (min (baseDelay * 2^retryCount) 30000)`, bump the counter and fire
the progress callback; once the counter has reached `maxRetries`, report
terminal failure and schedule nothing. -/
def wsOnClose (maxRetries : Nat) (baseDelay : ℚ) (retryCount : Nat)
    (wasClean : Bool) (rand : ℚ) : CloseResult :=
  if ¬wasClean ∧ retryCount < maxRetries then
    let baseDelayCurrent := baseDelay * 2 ^ retryCount
    let delay := addJitter (min baseDelayCurrent 30000) rand
    { retryCount := retryCount + 1
      scheduledDelay := some delay
      reconnectingCb := some (retryCount + 1, maxRetries)
      terminalFailure := false }
  else if retryCount ≥ maxRetries then
    { retryCount := retryCount
      scheduledDelay := none
      reconnectingCb := none
      terminalFailure := true }
  else
    { retryCount := retryCount
      scheduledDelay := none
      reconnectingCb := none
      terminalFailure := false }

/-- A run of consecutive unclean closes: each close whose handler scheduled a
reconnect is followed by another unclean close (the next attempt failing),
consuming one random draw per close.  Returns how many times the terminal
failure callback fired. -/
def runUncleanCloses (maxRetries : Nat) (baseDelay : ℚ) :
    Nat → List ℚ → Nat
  | _, [] => 0
  | retryCount, rand :: rest =>
      let r := wsOnClose maxRetries baseDelay retryCount false rand
      (if r.terminalFailure then 1 else 0) +
        (if r.scheduledDelay.isSome then
          runUncleanCloses maxRetries baseDelay r.retryCount rest
        else 0)

/-! ## Association-list lemmas -/

theorem alGet_alSet_self {α : Type} (m : List (String × α)) (k : String) (v : α) :
    alGet (alSet m k v) k = some v := by
  induction m with
  | nil => simp [alSet, alGet]
  | cons kv rest ih =>
      by_cases h : kv.1 = k
      · simp [alSet, h, alGet]
      · simp [alSet, h, alGet, ih]

theorem alGet_alSet_ne {α : Type} (m : List (String × α)) (k k' : String) (v : α)
    (h : k' ≠ k) : alGet (alSet m k v) k' = alGet m k' := by
  induction m with
  | nil => simp [alSet, alGet, Ne.symm h]
  | cons kv rest ih =>
      obtain ⟨k1, v1⟩ := kv
      by_cases hk : k1 = k
      · simp [alSet, hk, alGet, Ne.symm h]
      · by_cases hk' : k1 = k'
        · simp [alSet, hk, alGet, hk', h]
        · simp [alSet, hk, alGet, hk', ih]

theorem alGet_alErase_self {α : Type} (m : List (String × α)) (k : String) :
    alGet (alErase m k) k = none := by
  induction m with
  | nil => simp [alErase, alGet]
  | cons kv rest ih =>
      by_cases h : kv.1 = k
      · simp [alErase, h, ih]
      · simp [alErase, h, alGet, ih]

theorem alGet_alErase_ne {α : Type} (m : List (String × α)) (k k' : String)
    (h : k' ≠ k) : alGet (alErase m k) k' = alGet m k' := by
  induction m with
  | nil => simp [alErase, alGet]
  | cons kv rest ih =>
      obtain ⟨k1, v1⟩ := kv
      by_cases hk : k1 = k
      · simp [alErase, hk, alGet, Ne.symm h, ih]
      · simp [alErase, hk, alGet, ih]

theorem alGet_setClientSessionId_self (clients : List (String × ClientInfo))
    (c : String) (sid : Option String) :
    alGet (setClientSessionId clients c sid) c =
      (alGet clients c).map (fun cl => { cl with sessionId := sid }) := by
  induction clients with
  | nil => simp [setClientSessionId, alGet]
  | cons kv rest ih =>
      obtain ⟨k1, v1⟩ := kv
      simp only [setClientSessionId, List.map_cons] at ih ⊢
      by_cases h : k1 = c
      · subst h
        rw [if_pos rfl]
        simp [alGet]
      · rw [if_neg h]
        simp only [alGet, h, if_false, ite_false]
        exact ih

theorem alGet_setClientSessionId_ne (clients : List (String × ClientInfo))
    (c k : String) (sid : Option String) (h : k ≠ c) :
    alGet (setClientSessionId clients c sid) k = alGet clients k := by
  induction clients with
  | nil => simp [setClientSessionId, alGet]
  | cons kv rest ih =>
      obtain ⟨k1, v1⟩ := kv
      simp only [setClientSessionId, List.map_cons] at ih ⊢
      by_cases hk : k1 = c
      · subst hk
        rw [if_pos rfl]
        simp only [alGet, Ne.symm h, if_false, ite_false]
        exact ih
      · rw [if_neg hk]
        by_cases hk' : k1 = k
        · simp [alGet, hk']
        · simp only [alGet, hk', if_false, ite_false]
          exact ih

/-! ## Concrete states used by witnesses and counterexamples -/

/-- A full supervisor table of ten ptys. -/
def tenPtyTable : List (String × PtyInfo) :=
  (List.range 10).map (fun i =>
    ("pty-" ++ toString i,
      { id := "pty-" ++ toString i
        pty := { cols := 120, rows := 30, cwd := "/" }
        sessionId := none
        projectPath := none
        startedAt := 0 }))

/-- A full supervisor table of ten processes. -/
def tenProcTable : List (String × ProcessInfo) :=
  (List.range 10).map (fun i =>
    ("proc-" ++ toString i,
      { id := "proc-" ++ toString i
        sessionId := none
        projectPath := none
        startedAt := 0
        status := .running }))

/-- C2 — `spawn` at the concurrency ceiling fails with the capacity error
message and registers nothing: for both supervisors, when the live-handle
count equals the fixed ceiling (10), `spawnClaudePty` / `spawnClaudeProcess`
throw the capacity error immediately and the table (hence the live-handle
count) is unchanged. -/
theorem c2_spawn_at_capacity_rejects
    (ptys : List (String × PtyInfo)) (processes : List (String × ProcessInfo))
    (popts : PtyOptions) (copts : ProcessOptions)
    (pid cid : String) (now : Int) (cwd0 : String)
    (hp : alSize ptys = MAX_CONCURRENT_PTYS)
    (hc : alSize processes = MAX_CONCURRENT_PROCESSES) :
    spawnClaudePty ptys popts pid now cwd0 =
      .error "Maximum concurrent PTYs (10) reached" ∧
    spawnClaudePtyTable ptys popts pid now cwd0 = ptys ∧
    spawnClaudeProcess processes copts cid now =
      .error "Maximum concurrent processes (10) reached" ∧
    spawnClaudeProcessTable processes copts cid now = processes := by
  have h1 : spawnClaudePty ptys popts pid now cwd0 =
      .error "Maximum concurrent PTYs (10) reached" := by
    unfold spawnClaudePty
    rw [hp]
    norm_num [MAX_CONCURRENT_PTYS]
    decide
  have h2 : spawnClaudeProcess processes copts cid now =
      .error "Maximum concurrent processes (10) reached" := by
    unfold spawnClaudeProcess
    rw [hc]
    norm_num [MAX_CONCURRENT_PROCESSES]
    decide
  refine ⟨h1, ?_, h2, ?_⟩
  · unfold spawnClaudePtyTable
    rw [h1]
  · unfold spawnClaudeProcessTable
    rw [h2]

/-- Witness for C2 at a concrete pair of full tables. -/
theorem c2_spawn_at_capacity_rejects_witness :
    (alSize tenPtyTable = MAX_CONCURRENT_PTYS ∧
      alSize tenProcTable = MAX_CONCURRENT_PROCESSES) ∧
    (spawnClaudePty tenPtyTable {} "pX" 0 "/" =
        .error "Maximum concurrent PTYs (10) reached" ∧
      spawnClaudePtyTable tenPtyTable {} "pX" 0 "/" = tenPtyTable ∧
      spawnClaudeProcess tenProcTable {} "cX" 0 =
        .error "Maximum concurrent processes (10) reached" ∧
      spawnClaudeProcessTable tenProcTable {} "cX" 0 = tenProcTable) :=
  ⟨⟨by decide, by decide⟩,
    c2_spawn_at_capacity_rejects tenPtyTable tenProcTable {} {} "pX" "cX" 0 "/"
      (by decide) (by decide)⟩

/-! ## C3 — removal vs. delivery order on exit/error -/

/-- A one-entry pty table for the C3 counterexample. -/
def ptyInfoP1 : PtyInfo :=
  { id := "p1"
    pty := { cols := 120, rows := 30, cwd := "/" }
    sessionId := none
    projectPath := none
    startedAt := 0 }

/-- The table holding only `ptyInfoP1`. -/
def ptyTableP1 : List (String × PtyInfo) := [("p1", ptyInfoP1)]

/-- A one-entry process table for the C3 counterexample. -/
def procInfoQ1 : ProcessInfo :=
  { id := "q1"
    sessionId := none
    projectPath := none
    startedAt := 0
    status := .running }

/-- The table holding only `procInfoQ1`. -/
def procTableQ1 : List (String × ProcessInfo) := [("q1", procInfoQ1)]

/-- C3 counterexample — in both supervisors the exit/error callbacks emit the
event *before* deleting the handle, so a listener running during the event
still finds the handle in the table (`getPty`/`getProcess` return it),
contradicting the claim that removal happens strictly before delivery. -/
theorem c3_counterexample :
    ((runPtyActs ptyTableP1 (ptyOnExit "p1" 0)).2.map
      (fun o => (getPty o.2.2 o.1).isSome)) = [true] ∧
    ((runProcActs procTableQ1 (procOnError "q1" "boom")).2.map
      (fun o => (getProcess o.2.2 o.1).isSome)) = [true] ∧
    ((runProcActs procTableQ1 (procOnExit "q1" (some 0) none)).2.map
      (fun o => (getProcess o.2.2 o.1).isSome)) = [true] ∧
    ¬ (∀ o ∈ (runPtyActs ptyTableP1 (ptyOnExit "p1" 0)).2,
        getPty o.2.2 o.1 = none) := by
  decide

/-- C3 amended — the handle is removed immediately *after* the exit/error
event is delivered (not before): within one callback, each listener observes
the handle still present in the table, and once the callback completes the
handle is gone. -/
theorem c3_amended
    (t : List (String × PtyInfo)) (pt : List (String × ProcessInfo))
    (id pid : String) (info : PtyInfo) (pinfo : ProcessInfo)
    (code : Int) (pcode : Option Int) (sig : Option String) (emsg : String)
    (h : alGet t id = some info) (h2 : alGet pt pid = some pinfo) :
    (runPtyActs t (ptyOnExit id code)).2 = [(id, .exit code, t)] ∧
    getPty t id = some info ∧
    getPty (runPtyActs t (ptyOnExit id code)).1 id = none ∧
    (runProcActs pt (procOnExit pid pcode sig)).2 =
      [(pid, .exit pcode sig, alSet pt pid { pinfo with status := .stopped })] ∧
    getProcess (alSet pt pid { pinfo with status := .stopped }) pid =
      some { pinfo with status := .stopped } ∧
    getProcess (runProcActs pt (procOnExit pid pcode sig)).1 pid = none ∧
    (runProcActs pt (procOnError pid emsg)).2 =
      [(pid, .error (some emsg), alSet pt pid { pinfo with status := .stopped })] ∧
    getProcess (runProcActs pt (procOnError pid emsg)).1 pid = none := by
  refine ⟨?_, ?_, ?_, ?_, ?_, ?_, ?_, ?_⟩
  · simp [ptyOnExit, runPtyActs]
  · simpa [getPty] using h
  · simp [ptyOnExit, runPtyActs, getPty, alGet_alErase_self]
  · simp [procOnExit, runProcActs, h2]
  · simp [getProcess, alGet_alSet_self]
  · simp [procOnExit, runProcActs, h2, getProcess, alGet_alErase_self]
  · simp [procOnError, runProcActs, h2]
  · simp [procOnError, runProcActs, h2, getProcess, alGet_alErase_self]

/-- Witness for the amended C3 at the concrete one-entry tables. -/
theorem c3_amended_witness :
    (alGet ptyTableP1 "p1" = some ptyInfoP1 ∧
      alGet procTableQ1 "q1" = some procInfoQ1) ∧
    ((runPtyActs ptyTableP1 (ptyOnExit "p1" 0)).2 = [("p1", .exit 0, ptyTableP1)] ∧
      getPty ptyTableP1 "p1" = some ptyInfoP1 ∧
      getPty (runPtyActs ptyTableP1 (ptyOnExit "p1" 0)).1 "p1" = none ∧
      (runProcActs procTableQ1 (procOnExit "q1" (some 0) none)).2 =
        [("q1", .exit (some 0) none,
          alSet procTableQ1 "q1" { procInfoQ1 with status := .stopped })] ∧
      getProcess (alSet procTableQ1 "q1" { procInfoQ1 with status := .stopped }) "q1" =
        some { procInfoQ1 with status := .stopped } ∧
      getProcess (runProcActs procTableQ1 (procOnExit "q1" (some 0) none)).1 "q1" = none ∧
      (runProcActs procTableQ1 (procOnError "q1" "boom")).2 =
        [("q1", .error (some "boom"),
          alSet procTableQ1 "q1" { procInfoQ1 with status := .stopped })] ∧
      getProcess (runProcActs procTableQ1 (procOnError "q1" "boom")).1 "q1" = none) :=
  ⟨⟨by decide, by decide⟩,
    c3_amended ptyTableP1 procTableQ1 "p1" "q1" ptyInfoP1 procInfoQ1 0 (some 0)
      none "boom" (by decide) (by decide)⟩

/-! ## Characterizations of `removeClientFromSession` -/

theorem removeClientFromSession_sole
    (st : RegState) (c s : String) (cl : ClientInfo) (mem : List String)
    (hc : alGet st.clients c = some cl) (hs : cl.sessionId = some s)
    (hm : alGet st.sessionClients s = some mem)
    (hsole : setDelete mem c = []) :
    removeClientFromSession st c =
      ({ st with
          sessionClients := alErase st.sessionClients s,
          sessionControllers := alErase st.sessionControllers s }, []) := by
  simp [removeClientFromSession, hc, hs, hm, hsole]

theorem removeClientFromSession_transfer
    (st : RegState) (c s n : String) (cl ncl : ClientInfo) (mem : List String)
    (hc : alGet st.clients c = some cl) (hs : cl.sessionId = some s)
    (hm : alGet st.sessionClients s = some mem)
    (hne : setDelete mem c ≠ [])
    (hctl : alGet st.sessionControllers s = some c)
    (hhead : (setDelete mem c).head? = some n)
    (hn : alGet st.clients n = some ncl) (hconn : ncl.connected = true) :
    removeClientFromSession st c =
      ({ st with
          sessionClients := alSet st.sessionClients s (setDelete mem c),
          sessionControllers := alSet st.sessionControllers s n },
        [Eff.send n (.sessionControl true)]) := by
  simp [removeClientFromSession, hc, hs, hm, hne, getSessionController, hctl,
    hhead, sendToClient, hn, hconn]

theorem removeClientFromSession_nonController
    (st : RegState) (c s : String) (cl : ClientInfo) (mem : List String)
    (hc : alGet st.clients c = some cl) (hs : cl.sessionId = some s)
    (hm : alGet st.sessionClients s = some mem)
    (hne : setDelete mem c ≠ [])
    (hctl : ¬ (alGet st.sessionControllers s = some c)) :
    removeClientFromSession st c =
      ({ st with sessionClients := alSet st.sessionClients s (setDelete mem c) },
        []) := by
  simp [removeClientFromSession, hc, hs, hm, hne, getSessionController, hctl]

/-- C1 — at most one controller per session, and on controller departure
(`removeClientFromSession`, reached from both the socket `disconnect` handler
and `dissociateClientFromSession`) control transfers, within that same
operation, to the earliest remaining member in insertion order, which is sent
`session.control` with `hasControl = true`. -/
theorem c1_controller_unique_and_handoff
    (st : RegState) (c s n : String) (cl ncl : ClientInfo) (mem : List String)
    (hc : alGet st.clients c = some cl) (hs : cl.sessionId = some s)
    (hm : alGet st.sessionClients s = some mem)
    (hctl : alGet st.sessionControllers s = some c)
    (hne : setDelete mem c ≠ [])
    (hhead : (setDelete mem c).head? = some n)
    (hn : alGet st.clients n = some ncl) (hconn : ncl.connected = true) :
    (∀ st' : RegState, ∀ c1 c2 s' : String,
        hasSessionControl st' c1 s' = true → hasSessionControl st' c2 s' = true →
        c1 = c2) ∧
    getSessionController (removeClientFromSession st c).1 s = some n ∧
    (removeClientFromSession st c).2 = [Eff.send n (.sessionControl true)] ∧
    (dissociateClientFromSession st c).2.1 = [Eff.send n (.sessionControl true)] := by
  have hrm := removeClientFromSession_transfer st c s n cl ncl mem hc hs hm hne
    hctl hhead hn hconn
  refine ⟨?_, ?_, ?_, ?_⟩
  · intro st' c1 c2 s' h1 h2
    simp only [hasSessionControl, decide_eq_true_eq] at h1 h2
    rw [h1] at h2
    exact Option.some_inj.mp h2
  · rw [hrm]
    simp [getSessionController, alGet_alSet_self]
  · rw [hrm]
  · simp [dissociateClientFromSession, hc, hs, hrm]

/-- A two-member registry used by the C1 witness. -/
def regTwo : RegState :=
  { clients := [("c1", { sessionId := some "s", connected := true }),
                ("c2", { sessionId := some "s", connected := true })]
    sessionClients := [("s", ["c1", "c2"])]
    sessionControllers := [("s", "c1")] }

/-- The client record both members of `regTwo` carry. -/
def regTwoClient : ClientInfo := { sessionId := some "s", connected := true }

/-- Witness for C1: the controller `c1` leaves `regTwo`; control passes to
`c2`, which is notified. -/
theorem c1_controller_unique_and_handoff_witness :
    (alGet regTwo.clients "c1" = some regTwoClient ∧
      regTwoClient.sessionId = some "s" ∧
      alGet regTwo.sessionClients "s" = some ["c1", "c2"] ∧
      alGet regTwo.sessionControllers "s" = some "c1" ∧
      setDelete ["c1", "c2"] "c1" ≠ [] ∧
      (setDelete ["c1", "c2"] "c1").head? = some "c2" ∧
      alGet regTwo.clients "c2" = some regTwoClient ∧
      regTwoClient.connected = true) ∧
    ((∀ st' : RegState, ∀ c1 c2 s' : String,
        hasSessionControl st' c1 s' = true → hasSessionControl st' c2 s' = true →
        c1 = c2) ∧
      getSessionController (removeClientFromSession regTwo "c1").1 "s" = some "c2" ∧
      (removeClientFromSession regTwo "c1").2 =
        [Eff.send "c2" (.sessionControl true)] ∧
      (dissociateClientFromSession regTwo "c1").2.1 =
        [Eff.send "c2" (.sessionControl true)]) :=
  ⟨⟨by decide, by decide, by decide, by decide, by decide, by decide, by decide,
      by decide⟩,
    c1_controller_unique_and_handoff regTwo "c1" "s" "c2" regTwoClient
      regTwoClient ["c1", "c2"] (by decide) (by decide) (by decide) (by decide)
      (by decide) (by decide) (by decide) (by decide)⟩

/-- C10 — re-associating a client with the session it already belongs to is
not a no-op: the client is first removed (with the usual control-handoff
side effects) and then rejoins at the back of the member list; it is granted
control again only if it was the sole member (the controller entry having
been cleared by the removal), and `associate` returns `true` in every case. -/
theorem c10_reassociate_same_session
    (st : RegState) (c s : String) (cl : ClientInfo) (mem : List String)
    (hc : alGet st.clients c = some cl) (hs : cl.sessionId = some s)
    (hconn : cl.connected = true)
    (hm : alGet st.sessionClients s = some mem)
    (hmem : c ∈ mem) (hnd : mem.Nodup) :
    (associateClientWithSession st c s).2.2 = true ∧
    (mem = [c] →
      getSessionController (associateClientWithSession st c s).1 s = some c ∧
      getClientsBySession (associateClientWithSession st c s).1 s = [c] ∧
      (associateClientWithSession st c s).2.1 =
        [Eff.send c (.sessionControl true)]) ∧
    (∀ n ncl, alGet st.sessionControllers s = some c →
      setDelete mem c ≠ [] → (setDelete mem c).head? = some n →
      alGet st.clients n = some ncl → ncl.connected = true →
      getSessionController (associateClientWithSession st c s).1 s = some n ∧
      getClientsBySession (associateClientWithSession st c s).1 s =
        setDelete mem c ++ [c] ∧
      (associateClientWithSession st c s).2.1 =
        [Eff.send n (.sessionControl true), Eff.send c (.sessionControl false)]) ∧
    (∀ c0, alGet st.sessionControllers s = some c0 → c0 ≠ c →
      setDelete mem c ≠ [] →
      getSessionController (associateClientWithSession st c s).1 s = some c0 ∧
      getClientsBySession (associateClientWithSession st c s).1 s =
        setDelete mem c ++ [c] ∧
      (associateClientWithSession st c s).2.1 =
        [Eff.send c (.sessionControl false)]) := by
  have hnotmem : c ∉ setDelete mem c := by
    intro hin
    simp only [setDelete] at hin
    exact ((List.Nodup.mem_erase_iff hnd).mp hin).1 rfl
  refine ⟨?_, ?_, ?_, ?_⟩
  · simp only [associateClientWithSession, hc]
    split <;> rfl
  · intro hsol
    have hsole : setDelete mem c = [] := by
      rw [hsol]
      simp [setDelete]
    have hrm := removeClientFromSession_sole st c s cl mem hc hs hm hsole
    refine ⟨?_, ?_, ?_⟩ <;>
      simp [associateClientWithSession, hc, hrm, alGet_alErase_self,
        alGet_alSet_self, setAdd, sendToClient, alGet_setClientSessionId_self,
        hconn, getSessionController, getClientsBySession]
  · intro n ncl hctl hne hhead hn hconn'
    have hrm := removeClientFromSession_transfer st c s n cl ncl mem hc hs hm
      hne hctl hhead hn hconn'
    refine ⟨?_, ?_, ?_⟩ <;>
      simp [associateClientWithSession, hc, hrm, alGet_alSet_self, setAdd,
        hnotmem, sendToClient, alGet_setClientSessionId_self, hconn,
        getSessionController, getClientsBySession]
  · intro c0 hctl0 hne0 hne
    have hctl' : ¬ (alGet st.sessionControllers s = some c) := by
      rw [hctl0]
      simp only [Option.some_inj]
      exact hne0
    have hrm := removeClientFromSession_nonController st c s cl mem hc hs hm
      hne hctl'
    refine ⟨?_, ?_, ?_⟩ <;>
      simp [associateClientWithSession, hc, hrm, alGet_alSet_self, setAdd,
        hnotmem, sendToClient, alGet_setClientSessionId_self, hconn, hctl0,
        getSessionController, getClientsBySession]

/-- Witness for C10: `c1` (controller of `regTwo`'s session `s`, with `c2`
also a member) re-associates with `s`. -/
theorem c10_reassociate_same_session_witness :
    (alGet regTwo.clients "c1" = some regTwoClient ∧
      regTwoClient.sessionId = some "s" ∧
      regTwoClient.connected = true ∧
      alGet regTwo.sessionClients "s" = some ["c1", "c2"] ∧
      "c1" ∈ ["c1", "c2"] ∧ (["c1", "c2"] : List String).Nodup) ∧
    ((associateClientWithSession regTwo "c1" "s").2.2 = true ∧
      (∀ n ncl, alGet regTwo.sessionControllers "s" = some "c1" →
        setDelete ["c1", "c2"] "c1" ≠ [] →
        (setDelete ["c1", "c2"] "c1").head? = some n →
        alGet regTwo.clients n = some ncl → ncl.connected = true →
        getSessionController (associateClientWithSession regTwo "c1" "s").1 "s" =
          some n ∧
        getClientsBySession (associateClientWithSession regTwo "c1" "s").1 "s" =
          setDelete ["c1", "c2"] "c1" ++ ["c1"] ∧
        (associateClientWithSession regTwo "c1" "s").2.1 =
          [Eff.send n (.sessionControl true),
           Eff.send "c1" (.sessionControl false)])) :=
  ⟨⟨by decide, by decide, by decide, by decide, by decide, by decide⟩,
    (c10_reassociate_same_session regTwo "c1" "s" regTwoClient ["c1", "c2"]
        (by decide) (by decide) (by decide) (by decide) (by decide)
        (by decide)).1,
    (c10_reassociate_same_session regTwo "c1" "s" regTwoClient ["c1", "c2"]
        (by decide) (by decide) (by decide) (by decide) (by decide)
        (by decide)).2.2.1⟩

/-! ## C5 — delivery of backend death events -/

theorem sendToSession_foldl (reg : RegState) (msg : SMsg) (l : List String)
    (acc : Nat × List Eff)
    (h : ∀ m ∈ l, ∃ cl, alGet reg.clients m = some cl ∧ cl.connected = true) :
    (l.foldl (fun acc clientId =>
        let r := sendToClient reg clientId msg
        (acc.1 + (if r.1 then 1 else 0), acc.2 ++ r.2)) acc).2 =
      acc.2 ++ l.map (fun m => Eff.send m msg) := by
  induction l generalizing acc with
  | nil => simp
  | cons m rest ih =>
      obtain ⟨cl, hcl, hconn⟩ := h m (List.mem_cons_self m rest)
      have hsend : sendToClient reg m msg = (true, [Eff.send m msg]) := by
        simp [sendToClient, hcl, hconn]
      simp only [List.foldl_cons, hsend]
      rw [ih _ (fun x hx => h x (List.mem_cons_of_mem _ hx))]
      simp

theorem sendToSession_eff (reg : RegState) (sid : String) (msg : SMsg)
    (h : ∀ m ∈ getClientsBySession reg sid,
      ∃ cl, alGet reg.clients m = some cl ∧ cl.connected = true) :
    (sendToSession reg sid msg).2 =
      (getClientsBySession reg sid).map (fun m => Eff.send m msg) := by
  unfold sendToSession
  rw [sendToSession_foldl reg msg _ (0, []) h]
  simp

/-- Router + registry state for the C5 counterexample and witness: clients
`c1`, `c2` share session `s`; `c1` owns process `p1` and pty `t1`. -/
def csChat : ClientSession :=
  { mode := .chat
    processId := some "p1"
    sessionId := some "s"
    status := .active }

/-- The process entry owned by `c1`. -/
def procP1 : ProcessInfo :=
  { id := "p1"
    sessionId := some "s"
    projectPath := none
    startedAt := 0
    status := .running }

/-- The combined state for C5. -/
def sysShared : SysState :=
  { reg := regTwo
    clientSessions := [("c1", csChat)]
    processClients := [("p1", "c1")]
    ptyClients := [("t1", "c1")]
    processes := [("p1", procP1)]
    ptys := [] }

/-- C5 counterexample — a backend `error` event for a client whose session
`s` has a second member `c2` sends both the `error` and the `session.ended`
to the owning client only; `c2`, a member of `s`, receives no
`session.ended`, contradicting the claim that every backend death event
delivers a `session.ended` to the whole session via `sendToSession`. -/
theorem c5_counterexample :
    "c2" ∈ getClientsBySession sysShared.reg "s" ∧
    (handleProcessOutput sysShared "p1" (.error (some "boom"))).2 =
      [Eff.send "c1" (.errorMsg "boom"), Eff.send "c1" (.sessionEnded "boom")] ∧
    Eff.send "c2" (SMsg.sessionEnded "boom") ∉
      (handleProcessOutput sysShared "p1" (.error (some "boom"))).2 := by
  decide

/-- C5 amended — a backend `exit` (process or pty) whose owning client has a
known session id delivers exactly one `session.ended` to every member of the
session (reason `"Signal: X"`/`"Exit code: N"`); a process `error` event
emits an `error` and a `session.ended` to the owning client only (not the
whole session) and clears the binding. -/
theorem c5_amended
    (st : SysState) (pid tid cid cid2 sid sid2 : String)
    (cs cs2 : ClientSession) (cl : ClientInfo)
    (hpc : alGet st.processClients pid = some cid)
    (hcs : alGet st.clientSessions cid = some cs)
    (hsid : cs.sessionId = some sid)
    (hmem : ∀ m ∈ getClientsBySession st.reg sid,
      ∃ mcl, alGet st.reg.clients m = some mcl ∧ mcl.connected = true)
    (hcl : alGet st.reg.clients cid = some cl) (hclconn : cl.connected = true)
    (hbound : cs.processId = some pid)
    (htc : alGet st.ptyClients tid = some cid2)
    (hcs2 : alGet st.clientSessions cid2 = some cs2)
    (hsid2 : cs2.sessionId = some sid2)
    (hmem2 : ∀ m ∈ getClientsBySession st.reg sid2,
      ∃ mcl, alGet st.reg.clients m = some mcl ∧ mcl.connected = true) :
    (∀ code signal, (handleProcessOutput st pid (.exit code signal)).2 =
      (getClientsBySession st.reg sid).map (fun m => Eff.send m (.sessionEnded
        (match strTruthy signal with
         | some sg => "Signal: " ++ sg
         | none => "Exit code: " ++
            (match code with | some nn => toString nn | none => "null"))))) ∧
    (∀ e, (handleProcessOutput st pid (.error e)).2 =
        [Eff.send cid (.errorMsg (orDefaultStr e "Process error")),
         Eff.send cid (.sessionEnded (orDefaultStr e "Process error"))] ∧
      alGet (handleProcessOutput st pid (.error e)).1.processClients pid = none ∧
      alGet (handleProcessOutput st pid (.error e)).1.clientSessions cid =
        some { cs with
            status := .ended
            endReason := some (orDefaultStr e "Process error")
            processId := none
            ptyId := none }) ∧
    (∀ ec : Int, (handlePtyOutput st tid (.exit ec)).2 =
      (getClientsBySession st.reg sid2).map (fun m =>
        Eff.send m (.sessionEnded ("Exit code: " ++ toString ec)))) := by
  refine ⟨?_, ?_, ?_⟩
  · intro code signal
    simp only [handleProcessOutput, hpc, hcs, Option.bind_eq_bind,
      Option.some_bind, hsid]
    rw [sendToSession_eff st.reg sid _ hmem]
  · intro e
    have hsend : sendToClient st.reg cid (.errorMsg (orDefaultStr e "Process error")) =
        (true, [Eff.send cid (.errorMsg (orDefaultStr e "Process error"))]) := by
      simp [sendToClient, hcl, hclconn]
    have hsend2 : sendToClient st.reg cid (.sessionEnded (orDefaultStr e "Process error")) =
        (true, [Eff.send cid (.sessionEnded (orDefaultStr e "Process error"))]) := by
      simp [sendToClient, hcl, hclconn]
    refine ⟨?_, ?_, ?_⟩
    · simp only [handleProcessOutput, hpc, hcs, Option.bind_eq_bind,
        Option.some_bind, hsid, hsend, hsend2]
      rfl
    · simp only [handleProcessOutput, hpc, markSessionEnded, hcs, hbound]
      cases hpty : cs.ptyId with
      | none => simp [alGet_alErase_self]
      | some tid' => simp [alGet_alErase_self]
    · simp only [handleProcessOutput, hpc, markSessionEnded, hcs, hbound]
      cases hpty : cs.ptyId with
      | none => simp [alGet_alSet_self, hpty]
      | some tid' => simp [alGet_alSet_self, hpty]
  · intro ec
    simp only [handlePtyOutput, htc, hcs2, Option.bind_eq_bind,
      Option.some_bind, hsid2]
    rw [sendToSession_eff st.reg sid2 _ hmem2]

/-- Witness for the amended C5 at `sysShared` (members `c1`, `c2`,
process `p1` and pty `t1` both owned by `c1`). -/
theorem c5_amended_witness :
    (alGet sysShared.processClients "p1" = some "c1" ∧
      alGet sysShared.clientSessions "c1" = some csChat ∧
      csChat.sessionId = some "s" ∧
      alGet sysShared.reg.clients "c1" = some regTwoClient ∧
      regTwoClient.connected = true ∧
      csChat.processId = some "p1" ∧
      alGet sysShared.ptyClients "t1" = some "c1") ∧
    ((handleProcessOutput sysShared "p1" (.exit (some 0) none)).2 =
      (getClientsBySession sysShared.reg "s").map (fun m =>
        Eff.send m (.sessionEnded ("Exit code: " ++ toString (0 : Int))))) :=
  ⟨⟨by decide, by decide, by decide, by decide, by decide, by decide,
      by decide⟩,
    by
      have h := (c5_amended sysShared "p1" "t1" "c1" "c1" "s" "s" csChat csChat
        regTwoClient (by decide) (by decide) (by decide)
        (by
          intro m hm
          simp only [sysShared, getClientsBySession, regTwo, alGet] at hm
          norm_num at hm
          rcases hm with h | h <;> subst h <;>
            exact ⟨regTwoClient, by decide, by decide⟩)
        (by decide) (by decide) (by decide) (by decide) (by decide) (by decide)
        (by
          intro m hm
          simp only [sysShared, getClientsBySession, regTwo, alGet] at hm
          norm_num at hm
          rcases hm with h | h <;> subst h <;>
            exact ⟨regTwoClient, by decide, by decide⟩)).1 (some 0) none
      simpa [strTruthy] using h⟩

/-! ## C6 — terminal.input / terminal.resize -/

/-- Terminal-mode client session bound to pty `t1`. -/
def csTerm : ClientSession :=
  { mode := .terminal
    ptyId := some "t1"
    sessionId := some "s"
    status := .active }

/-- The pty entry bound to `c1`. -/
def ptyT1 : PtyInfo :=
  { id := "t1"
    pty := { cols := 120, rows := 30, cwd := "/" }
    sessionId := some "s"
    projectPath := none
    startedAt := 0 }

/-- System state with a terminal session bound for `c1`. -/
def sysTerm : SysState :=
  { reg := regTwo
    clientSessions := [("c1", csTerm)]
    processClients := []
    ptyClients := [("t1", "c1")]
    processes := []
    ptys := [("t1", ptyT1)] }

/-- System state where `c1` has no client session at all. -/
def sysNoSession : SysState :=
  { reg := regTwo
    clientSessions := []
    processClients := []
    ptyClients := []
    processes := []
    ptys := [] }

/-- C6 counterexample — `terminal.input` from a client with no bound terminal
backend does *not* auto-start one: the handler replies with an error and
leaves the whole state (including the pty table) unchanged, so no backend
exists to receive the input, contradicting the auto-start claim. -/
theorem c6_counterexample :
    handleTerminalInput sysNoSession "c1"
        { type := "terminal.input", content := some "x" } =
      (sysNoSession, [Eff.send "c1" (.errorMsg "No active terminal session")]) ∧
    handleTerminalResize sysNoSession "c1"
        { type := "terminal.resize", cols := some 80, rows := some 24 } =
      (sysNoSession, []) := by
  decide

/-- C6 amended — `terminal.input` writes the given bytes to the bound
`PtyHandle` when the client has a terminal-mode session with a bound pty;
with no terminal-mode session it sends one `error` ("No active terminal
session") and starts nothing.  `terminal.resize` resizes the bound pty and
silently ignores the request when no terminal-mode session exists. -/
theorem c6_amended (st : SysState) (cid : String) :
    (∀ cs tid content pinfo,
      alGet st.clientSessions cid = some cs → cs.mode = .terminal →
      cs.ptyId = some tid → alGet st.ptys tid = some pinfo → content ≠ "" →
      handleTerminalInput st cid
          { type := "terminal.input", content := some content } =
        (st, [Eff.writePty tid content])) ∧
    (∀ content cl,
      alGet st.clientSessions cid = none →
      alGet st.reg.clients cid = some cl → cl.connected = true →
      handleTerminalInput st cid
          { type := "terminal.input", content := content } =
        (st, [Eff.send cid (SMsg.errorMsg "No active terminal session")])) ∧
    (∀ cs tid cols rows pinfo,
      alGet st.clientSessions cid = some cs → cs.mode = .terminal →
      cs.ptyId = some tid → alGet st.ptys tid = some pinfo →
      cols ≠ 0 → rows ≠ 0 →
      handleTerminalResize st cid
          { type := "terminal.resize", cols := some cols, rows := some rows } =
        (st, [Eff.resizePty tid cols rows])) ∧
    (∀ cols rows,
      alGet st.clientSessions cid = none →
      handleTerminalResize st cid
          { type := "terminal.resize", cols := cols, rows := rows } =
        (st, [])) := by
  refine ⟨?_, ?_, ?_, ?_⟩
  · intro cs tid content pinfo hcs hmode htid hpty hcontent
    simp [handleTerminalInput, hcs, hmode, strTruthy, hcontent, htid,
      writeToPtySys, hpty]
  · intro content cl hcs hcl hconn
    simp [handleTerminalInput, hcs, sendToClient, hcl, hconn]
  · intro cs tid cols rows pinfo hcs hmode htid hpty hcols hrows
    simp [handleTerminalResize, hcs, hmode, htid, natTruthy, hcols, hrows,
      resizePtySys, hpty]
  · intro cols rows hcs
    simp [handleTerminalResize, hcs]

/-- Witness for the amended C6: input is written to the bound pty in
`sysTerm`, and the no-session error fires in `sysNoSession`. -/
theorem c6_amended_witness :
    (alGet sysTerm.clientSessions "c1" = some csTerm ∧
      csTerm.mode = .terminal ∧ csTerm.ptyId = some "t1" ∧
      alGet sysTerm.ptys "t1" = some ptyT1 ∧ ("ls" : String) ≠ "") ∧
    handleTerminalInput sysTerm "c1"
        { type := "terminal.input", content := some "ls" } =
      (sysTerm, [Eff.writePty "t1" "ls"]) :=
  ⟨⟨by decide, by decide, by decide, by decide, by decide⟩,
    (c6_amended sysTerm "c1").1 csTerm "t1" "ls" ptyT1 (by decide) (by decide)
      (by decide) (by decide) (by decide)⟩

/-! ## C4 — mode.switch -/

/-- Registry for the C4 failing input. -/
def regSwitch : RegState :=
  { clients := [("c1", { sessionId := some "sess", connected := true })]
    sessionClients := [("sess", ["c1"])]
    sessionControllers := [("sess", "c1")] }

/-- Chat session about to be switched. -/
def csSwitch : ClientSession :=
  { mode := .chat
    processId := some "p1"
    sessionId := some "sess"
    status := .active }

/-- The chat backend: it was spawned with `projectPath = "/p"`. -/
def procSwitch : ProcessInfo :=
  { id := "p1"
    sessionId := some "sess"
    projectPath := some "/p"
    startedAt := 0
    status := .running }

/-- System state for the C4 failing input. -/
def sysSwitch : SysState :=
  { reg := regSwitch
    clientSessions := [("c1", csSwitch)]
    processClients := [("p1", "c1")]
    ptyClients := []
    processes := [("p1", procSwitch)]
    ptys := [] }

/-- The `mode.switch` message of the C4 failing input. -/
def switchMsg : ClientMsg :=
  { type := "mode.switch"
    mode := some .terminal
    cols := some 80
    rows := some 24 }

/-- C4 — evaluated at the failing input: the old chat backend was created
with `projectPath = "/p"`, yet the replacement terminal backend is spawned
with `projectPath = none` (its cwd falling back to `process.cwd()`), because
the `projectPath` ternary in `handleModeSwitch` is `undefined` in every
branch; `sessionId` and the requested geometry *are* carried over, the old
backend is killed and unbound, and an unchanged-mode switch is a no-op. -/
theorem c4_mode_switch_drops_project_path :
    alGet sysSwitch.processes "p1" = some procSwitch ∧
    procSwitch.projectPath = some "/p" ∧
    (handleModeSwitch sysSwitch "c1" switchMsg "pty9" 5 "/cwd").1.ptys =
      [("pty9",
        { id := "pty9"
          pty := { cols := 80, rows := 24, cwd := "/cwd" }
          sessionId := some "sess"
          projectPath := none
          startedAt := 5 })] ∧
    Eff.killProc "p1" ∈
      (handleModeSwitch sysSwitch "c1" switchMsg "pty9" 5 "/cwd").2 ∧
    alGet (handleModeSwitch sysSwitch "c1" switchMsg "pty9" 5 "/cwd").1.processes
        "p1" = none ∧
    alGet (handleModeSwitch sysSwitch "c1" switchMsg "pty9" 5 "/cwd").1.processClients
        "p1" = none ∧
    handleModeSwitch sysSwitch "c1"
        { type := "mode.switch", mode := some Mode.chat } "x" 5 "/cwd" =
      (sysSwitch, []) := by
  decide

/-! ## C7 — concrete stream assembly -/

/-- The three-line stream prefix of C7 (braces written via `\x7b`/`\x7d`). -/
def c7Bytes : List Char :=
  ("\x7b\"type\":\"assistant\",\"message\":\x7b\"id\":\"m1\",\"content\":[]\x7d\x7d\n").data ++
  ("\x7b\"type\":\"content_block_start\",\"index\":0,\"content_block\":\x7b\"type\":\"text\",\"text\":\"\"\x7d\x7d\n").data ++
  ("\x7b\"type\":\"content_block_delta\",\"index\":0,\"delta\":\x7b\"type\":\"text_delta\",\"text\":\"Hi\"\x7d\x7d\n").data

/-- The trailing `message_stop` line of C7. -/
def c7StopBytes : List Char :=
  ("\x7b\"type\":\"message_stop\"\x7d\n").data

/-- The expected text block after the delta. -/
def c7TextBlock : Json :=
  .obj [("type", .str "text"), ("text", .str "Hi")]

set_option maxRecDepth 100000 in
/-- C7 — feeding the assembler the three-line sequence yields exactly one
StreamingMessage `m1` whose first content block is a text block with text
`"Hi"` and `isStreaming = true`; after the additional `message_stop` line the
same single message has `isStreaming = false`. -/
theorem c7_stream_assembly_concrete :
    (handleChunk asmInit c7Bytes).core.streamingMessages =
      [{ id := "m1", role := .assistant, content := [some c7TextBlock],
         isStreaming := true }] ∧
    (handleChunk (handleChunk asmInit c7Bytes) c7StopBytes).core.streamingMessages =
      [{ id := "m1", role := .assistant, content := [some c7TextBlock],
         isStreaming := false }] := by
  constructor <;> rfl

/-! ## C8 — chunk-boundary independence -/

theorem splitComplete_append (a b : List Char) :
    splitComplete (a ++ b) =
      ((splitComplete a).1 ++ (splitComplete ((splitComplete a).2 ++ b)).1,
        (splitComplete ((splitComplete a).2 ++ b)).2) := by
  induction a with
  | nil => simp [splitComplete]
  | cons c a ih =>
      simp only [List.cons_append, splitComplete, List.append_eq]
      rw [ih]
      by_cases hc : c = '\n'
      · simp [hc]
      · simp only [hc, if_false, ite_false]
        cases h1 : (splitComplete a).1 with
        | nil =>
            simp only [h1, List.nil_append]
            cases h2 : (splitComplete ((splitComplete a).2 ++ b)).1 <;>
              simp [splitComplete, h2, hc]
        | cons h t => simp [h1]

theorem handleChunk_buffer_core (st : AsmState) (chunk : List Char) :
    handleChunk st chunk =
      { buffer := (splitComplete (st.buffer ++ chunk)).2
        core := (splitComplete (st.buffer ++ chunk)).1.foldl processLine st.core } :=
  rfl

theorem handleChunk_append (st : AsmState) (a b : List Char) :
    handleChunk (handleChunk st a) b = handleChunk st (a ++ b) := by
  simp only [handleChunk_buffer_core]
  rw [← List.append_assoc, splitComplete_append (st.buffer ++ a) b,
    List.foldl_append]

/-- C8 — feeding the assembler `s[0..i)` then `s[i..)` produces the same
final state (messages and line buffer) as feeding all of `s` in one call:
chunk boundaries inside a line are invisible because the trailing partial
line is buffered across calls. -/
theorem c8_chunk_boundary_independence (st : AsmState) (s : List Char)
    (i : Nat) :
    handleChunk (handleChunk st (s.take i)) (s.drop i) = handleChunk st s := by
  rw [handleChunk_append, List.take_append_drop]

/-! ## C9 — reconnect backoff -/

theorem runUncleanCloses_exhaust (maxRetries : Nat) (baseDelay : ℚ)
    (rands : List ℚ) :
    ∀ n : Nat, n ≤ maxRetries → rands.length = maxRetries + 1 - n →
      runUncleanCloses maxRetries baseDelay n rands = 1 := by
  induction rands with
  | nil =>
      intro n hn hlen
      exfalso
      simp only [List.length_nil] at hlen
      omega
  | cons r rs ih =>
      intro n hn hlen
      simp only [List.length_cons] at hlen
      by_cases hlt : n < maxRetries
      · have h1 : runUncleanCloses maxRetries baseDelay n (r :: rs) =
            runUncleanCloses maxRetries baseDelay (n + 1) rs := by
          simp [runUncleanCloses, wsOnClose, hlt]
        rw [h1]
        exact ih (n + 1) hlt (by omega)
      · have heqn : n = maxRetries := by omega
        subst heqn
        simp [runUncleanCloses, wsOnClose]

/-- C9 — on the `n`-th consecutive unclean close (`n < maxRetries`) a
reconnect is scheduled after `min (baseDelay * 2^n) 30000` milliseconds
±30 % jitter, the retry counter becomes `n+1` and the progress callback
fires; once the counter has reached `maxRetries`, no reconnect is scheduled
and the terminal failure callback fires exactly once over the whole run. -/
theorem c9_backoff_schedule (maxRetries : Nat) (baseDelay : ℚ) (n : Nat)
    (rand : ℚ) (hb : 0 ≤ baseDelay) (h0 : 0 ≤ rand) (h1 : rand ≤ 1) :
    (n < maxRetries →
      (wsOnClose maxRetries baseDelay n false rand).retryCount = n + 1 ∧
      (wsOnClose maxRetries baseDelay n false rand).reconnectingCb =
        some (n + 1, maxRetries) ∧
      (wsOnClose maxRetries baseDelay n false rand).terminalFailure = false ∧
      ∃ d, (wsOnClose maxRetries baseDelay n false rand).scheduledDelay = some d ∧
        |d - min (baseDelay * 2 ^ n) 30000| ≤
          (3 / 10) * min (baseDelay * 2 ^ n) 30000) ∧
    (wsOnClose maxRetries baseDelay maxRetries false rand =
      { retryCount := maxRetries
        scheduledDelay := none
        reconnectingCb := none
        terminalFailure := true }) ∧
    (∀ rands : List ℚ, rands.length = maxRetries + 1 →
      runUncleanCloses maxRetries baseDelay 0 rands = 1) := by
  refine ⟨?_, ?_, ?_⟩
  · intro hlt
    have hD : (0 : ℚ) ≤ min (baseDelay * 2 ^ n) 30000 := by
      have : (0 : ℚ) ≤ baseDelay * 2 ^ n := by positivity
      exact le_min this (by norm_num)
    set D : ℚ := min (baseDelay * 2 ^ n) 30000 with hDdef
    have hjit : addJitter D rand = D + D * (3 / 10) * (rand * 2 - 1) := by
      unfold addJitter
      rw [max_eq_right]
      nlinarith
    refine ⟨by simp [wsOnClose, hlt], by simp [wsOnClose, hlt],
      by simp [wsOnClose, hlt], ?_⟩
    refine ⟨addJitter D rand, by simp [wsOnClose, hlt, hDdef], ?_⟩
    rw [hjit]
    rw [abs_le]
    constructor <;> nlinarith
  · simp [wsOnClose]
  · intro rands hlen
    exact runUncleanCloses_exhaust maxRetries baseDelay rands 0
      (Nat.zero_le _) (by omega)

/-- Witness for C9 at `maxRetries = 3`, `baseDelay = 1000`, `n = 1`,
`rand = 1/2`. -/
theorem c9_backoff_schedule_witness :
    ((0 : ℚ) ≤ 1000 ∧ (0 : ℚ) ≤ 1 / 2 ∧ (1 / 2 : ℚ) ≤ 1) ∧
    ((1 < 3 →
      (wsOnClose 3 1000 1 false (1 / 2)).retryCount = 1 + 1 ∧
      (wsOnClose 3 1000 1 false (1 / 2)).reconnectingCb = some (1 + 1, 3) ∧
      (wsOnClose 3 1000 1 false (1 / 2)).terminalFailure = false ∧
      ∃ d, (wsOnClose 3 1000 1 false (1 / 2)).scheduledDelay = some d ∧
        |d - min ((1000 : ℚ) * 2 ^ 1) 30000| ≤
          (3 / 10) * min ((1000 : ℚ) * 2 ^ 1) 30000) ∧
    (wsOnClose 3 1000 3 false (1 / 2) =
      { retryCount := 3
        scheduledDelay := none
        reconnectingCb := none
        terminalFailure := true }) ∧
    (∀ rands : List ℚ, rands.length = 3 + 1 →
      runUncleanCloses 3 1000 0 rands = 1)) :=
  ⟨⟨by norm_num, by norm_num, by norm_num⟩,
    c9_backoff_schedule 3 1000 1 (1 / 2) (by norm_num) (by norm_num)
      (by norm_num)⟩

end ClaudeWebUI
